import Mathlib

/-!
Verification development for the incident-management core of the
`Prakash-sa/terraform-aws` repository.

The repository contains two parallel Go implementations of the incident
service and of the AI client layer:

* the `pkg` side: `app/pkg/service` (store + service, severity heuristic,
  `UpdateIncident`, `AnalyzeIncident`, `GenerateRCA`, `generateID`),
  `app/pkg/ai` (client factory over `ClientConfig`, response parsing in
  `parsing.go`), `app/pkg/models`;
* the `internal` side: `app/internal/incident` (service with separate
  `incidents`/`analyses`/`rcas` maps, `UpdateIncidentStatus`,
  `AnalyzeIncident`, `GenerateRCA`, `CreateIncident`) and
  `app/internal/ai` (client factory over `Config`).

Go strings are modelled as `List Char`, timestamps as `Nat`, maps as
association lists, `(T, error)` returns as `Except` or explicit pairs.
Lock usage and AI-client invocations are modelled as explicit event
traces emitted alongside each operation's result.
-/

/-- String data shorthand: the list of characters of a literal. -/
def str (s : String) : List Char := s.data

namespace Models

/-- Severity levels from `app/pkg/models/incident.go`. -/
inductive Severity where
  | critical
  | high
  | medium
  | low
  | unknown
deriving DecidableEq, Repr

/-- Incident status values from `app/pkg/models/incident.go`. -/
inductive IncidentStatus where
  | open_
  | inProgress
  | resolved
  | closed
deriving DecidableEq, Repr

end Models

namespace PkgService

open Models

/-- Inner loop of `hasKeyword` (app/pkg/service, part_010 lines 604-609):
Go iterates `i` from `0` to `len(t)-len(kw)` inclusive (the bound
`len(t)-len(kw)+1` is computed in `int`; `List.range (t.length + 1 - kw.length)`
produces exactly the same index set) and compares the byte slice
`t[i:i+len(kw)]` with `kw` for equality.  There is no case folding. -/
def scanKeyword (t kw : List Char) : Bool :=
  (List.range (t.length + 1 - kw.length)).any
    (fun i => decide ((t.drop i).take kw.length = kw))

/-- Embedding of `hasKeyword` (part_010 lines 599-613): for each keyword,
if both the text and the keyword are non-empty, run the substring scan. -/
def hasKeyword (text : List Char) (keywords : List (List Char)) : Bool :=
  keywords.any (fun kw =>
    decide (0 < text.length) && decide (0 < kw.length) && scanKeyword text kw)

/-- Embedding of `classifySeverity` (part_010 lines 577-595): concatenates
title, a space, and description, then tests the keyword tiers in order. -/
def classifySeverity (title description : List Char) : Severity :=
  let d := title ++ str " " ++ description
  if hasKeyword d [str "critical", str "production down", str "data loss",
      str "security breach"] then
    Severity.critical
  else if hasKeyword d [str "error", str "failure", str "down",
      str "unavailable"] then
    Severity.high
  else if hasKeyword d [str "warning", str "degraded", str "slow",
      str "high memory"] then
    Severity.medium
  else
    Severity.low

/-- Severity and status assigned by `CreateIncident` (part_010 lines
301-327): status is always `open`; severity is the request's severity when
supplied, otherwise the value of `classifySeverity` (which in this
implementation never consults the AI client). -/
def createSeverityStatus (title description : List Char)
    (reqSeverity : Option Severity) : Severity × IncidentStatus :=
  (match reqSeverity with
    | some sv => sv
    | none => classifySeverity title description,
   IncidentStatus.open_)

end PkgService

example : PkgService.classifySeverity (str "db down") (str "x") = Models.Severity.high := by decide
example : PkgService.classifySeverity (str "CRITICAL") (str "Outage ongoing") = Models.Severity.low := by decide

/-- Dynamic JSON value, the model of Go's `interface{}` values produced by
`encoding/json.Unmarshal` (used both for `map[string]interface{}` metadata
fields and for the response parser in `app/pkg/ai/parsing.go`).  Number
lexemes are kept verbatim; none of the verified properties inspect them. -/
inductive Jval where
  | jnull
  | jbool (b : Bool)
  | jnum (lexeme : List Char)
  | jstr (s : List Char)
  | jarr (items : List Jval)
  | jobj (fields : List (List Char × Jval))

/-- Model of Go's `map[string]interface{}`: `none` is the nil map. -/
abbrev Meta := List (List Char × Jval)

namespace Models

/-- Embedding of `models.AIAnalysis` (app/pkg/models/incident.go).
Timestamps are `Nat`.  `SeveritySuggestion` is declared with the string
type `models.Severity`; the service fills it by casting an arbitrary
string from the AI response (`models.Severity(analysis.SuggestedSeverity)`,
part_010 line 476), so it is modelled as a raw string. -/
structure AIAnalysis where
  summary : List Char
  findings : List (List Char)
  rootCauses : List (List Char)
  recommendedActions : List (List Char)
  severitySuggestion : List Char
  generatedAt : Nat
  model : List Char
  provider : List Char
deriving DecidableEq, Repr

/-- Embedding of `models.RCADocument`.  The service code in part_010
assigns `buildTimeline(incident)` (a `[]string`) to the timeline field, so
the timeline is modelled as a list of strings. -/
structure RCADocument where
  timeline : List (List Char)
  rootCause : List Char
  impact : List Char
  immediateResolution : List Char
  preventiveMeasures : List (List Char)
  lessonsLearned : List (List Char)
  generatedAt : Nat
  model : List Char
  provider : List Char
deriving DecidableEq, Repr

/-- Embedding of `models.Incident` (app/pkg/models/incident.go). -/
structure Incident where
  id : List Char
  title : List Char
  description : List Char
  source : List Char
  severity : Severity
  status : IncidentStatus
  logs : List (List Char)
  tags : Option (List (List Char))
  metadata : Option Meta
  createdAt : Nat
  updatedAt : Nat
  resolvedAt : Option Nat
  assignedTo : List Char
  aiAnalysis : Option AIAnalysis
  rcaDocument : Option RCADocument

/-- Embedding of `models.UpdateIncidentRequest`: pointer fields are
`Option`, the slice fields `Logs`/`Tags` and the map field `Metadata`
distinguish nil (`none` / `[]` for logs, whose nil and empty cases are
not distinguished by the service code) from present values. -/
structure UpdateIncidentRequest where
  title : Option (List Char)
  description : Option (List Char)
  severity : Option Severity
  status : Option IncidentStatus
  logs : List (List Char)
  tags : Option (List (List Char))
  metadata : Option Meta
  assignedTo : Option (List Char)

end Models

namespace PkgService

open Models

/-- Step 1 of `UpdateIncident` (part_010 line 385): `if req.Title != nil`. -/
def updTitle (inc : Incident) (req : UpdateIncidentRequest) : Incident :=
  match req.title with
  | some t => { inc with title := t }
  | none => inc

/-- Step 2 of `UpdateIncident` (line 389): `if req.Description != nil`. -/
def updDescription (inc : Incident) (req : UpdateIncidentRequest) : Incident :=
  match req.description with
  | some d => { inc with description := d }
  | none => inc

/-- Step 3 of `UpdateIncident` (line 393): `if req.Severity != nil`. -/
def updSeverity (inc : Incident) (req : UpdateIncidentRequest) : Incident :=
  match req.severity with
  | some sv => { inc with severity := sv }
  | none => inc

/-- Step 4 of `UpdateIncident` (lines 397-406): assign the status and,
exactly when the new status is `resolved` while the previous one was not,
stamp `resolvedAt` with the current time. -/
def updStatus (inc : Incident) (req : UpdateIncidentRequest) (now : Nat) :
    Incident :=
  match req.status with
  | some st =>
      let oldStatus := inc.status
      let inc' := { inc with status := st }
      if st = IncidentStatus.resolved ∧ oldStatus ≠ IncidentStatus.resolved then
        { inc' with resolvedAt := some now }
      else
        inc'
  | none => inc

/-- Step 5 of `UpdateIncident` (line 408): `if len(req.Logs) > 0`. -/
def updLogs (inc : Incident) (req : UpdateIncidentRequest) : Incident :=
  if 0 < req.logs.length then { inc with logs := req.logs } else inc

/-- Step 6 of `UpdateIncident` (line 412): `if req.Tags != nil`. -/
def updTags (inc : Incident) (req : UpdateIncidentRequest) : Incident :=
  match req.tags with
  | some ts => { inc with tags := some ts }
  | none => inc

/-- Step 7 of `UpdateIncident` (line 416): `if req.Metadata != nil`. -/
def updMetadata (inc : Incident) (req : UpdateIncidentRequest) : Incident :=
  match req.metadata with
  | some m => { inc with metadata := some m }
  | none => inc

/-- Step 8 of `UpdateIncident` (line 420): `if req.AssignedTo != nil`. -/
def updAssigned (inc : Incident) (req : UpdateIncidentRequest) : Incident :=
  match req.assignedTo with
  | some a => { inc with assignedTo := a }
  | none => inc

/-- Embedding of `UpdateIncident` (part_010 lines 375-428), the pure field
update applied to the stored incident once it has been found; `now` stands
for `time.Now()`.  The steps are applied in the source's order, ending with
the unconditional `UpdatedAt` refresh (line 424). -/
def updateIncident (inc : Incident) (req : UpdateIncidentRequest)
    (now : Nat) : Incident :=
  { updAssigned (updMetadata (updTags (updLogs
      (updStatus (updSeverity (updDescription (updTitle inc req) req) req)
        req now) req) req) req) req with updatedAt := now }

/-- Empty update request (all fields absent), the model of a request whose
JSON body carried none of the optional fields. -/
def emptyUpdateReq : UpdateIncidentRequest :=
  ⟨none, none, none, none, [], none, none, none⟩

end PkgService

/-- Association-list lookup, the model of a Go map read (`m[k]`);
keys are kept unique by construction on the store side. -/
def getAssoc {α : Type} (m : List (List Char × α)) (k : List Char) : Option α :=
  (m.find? (fun p => p.1 == k)).map (fun p => p.2)

/-- Association-list in-place value update, the model of mutating the
record a Go map entry points to. -/
def setAssoc {α : Type} (m : List (List Char × α)) (k : List Char) (v : α) :
    List (List Char × α) :=
  m.map (fun p => if p.1 == k then (p.1, v) else p)

namespace IntIncident

open Models

/-- Embedding of the internal `models.Incident` as used by
`app/internal/incident` (part_005): the severity is a plain string there
(empty string means "not supplied"), and the record carries alert data. -/
structure IIncident where
  id : List Char
  title : List Char
  description : List Char
  severity : List Char
  status : IncidentStatus
  source : List Char
  alertData : Option Meta
  logs : List (List Char)
  createdAt : Nat
  updatedAt : Nat
  resolvedAt : Option Nat

/-- Incident table of the internal service (`Service.incidents`). -/
abbrev ITable := List (List Char × IIncident)

/-- Embedding of `UpdateIncidentStatus` (part_005 lines 93-111): under the
exclusive lock, look the incident up (NotFound error if absent), assign the
new status, refresh `UpdatedAt`, and — for `resolved` OR `closed` —
unconditionally overwrite `ResolvedAt` with the current time. -/
def updateIncidentStatus (tbl : ITable) (id : List Char)
    (status : IncidentStatus) (now : Nat) : Except (List Char) ITable :=
  match getAssoc tbl id with
  | none => Except.error (str "incident not found: " ++ id)
  | some inc =>
      let inc := { inc with status := status, updatedAt := now }
      let inc :=
        if status = IncidentStatus.resolved ∨ status = IncidentStatus.closed then
          { inc with resolvedAt := some now }
        else
          inc
      Except.ok (setAssoc tbl id inc)

end IntIncident

namespace PkgService

open Models

theorem updTitle_resolvedAt (inc : Incident) (req : UpdateIncidentRequest) :
    (updTitle inc req).resolvedAt = inc.resolvedAt := by
  unfold updTitle; cases req.title <;> rfl

theorem updDescription_resolvedAt (inc : Incident) (req : UpdateIncidentRequest) :
    (updDescription inc req).resolvedAt = inc.resolvedAt := by
  unfold updDescription; cases req.description <;> rfl

theorem updSeverity_resolvedAt (inc : Incident) (req : UpdateIncidentRequest) :
    (updSeverity inc req).resolvedAt = inc.resolvedAt := by
  unfold updSeverity; cases req.severity <;> rfl

theorem updLogs_resolvedAt (inc : Incident) (req : UpdateIncidentRequest) :
    (updLogs inc req).resolvedAt = inc.resolvedAt := by
  unfold updLogs; split <;> rfl

theorem updTags_resolvedAt (inc : Incident) (req : UpdateIncidentRequest) :
    (updTags inc req).resolvedAt = inc.resolvedAt := by
  unfold updTags; cases req.tags <;> rfl

theorem updMetadata_resolvedAt (inc : Incident) (req : UpdateIncidentRequest) :
    (updMetadata inc req).resolvedAt = inc.resolvedAt := by
  unfold updMetadata; cases req.metadata <;> rfl

theorem updAssigned_resolvedAt (inc : Incident) (req : UpdateIncidentRequest) :
    (updAssigned inc req).resolvedAt = inc.resolvedAt := by
  unfold updAssigned; cases req.assignedTo <;> rfl

theorem updTitle_status (inc : Incident) (req : UpdateIncidentRequest) :
    (updTitle inc req).status = inc.status := by
  unfold updTitle; cases req.title <;> rfl

theorem updDescription_status (inc : Incident) (req : UpdateIncidentRequest) :
    (updDescription inc req).status = inc.status := by
  unfold updDescription; cases req.description <;> rfl

theorem updSeverity_status (inc : Incident) (req : UpdateIncidentRequest) :
    (updSeverity inc req).status = inc.status := by
  unfold updSeverity; cases req.severity <;> rfl

theorem updStatus_none (inc : Incident) (req : UpdateIncidentRequest)
    (now : Nat) (h : req.status = none) : updStatus inc req now = inc := by
  unfold updStatus; rw [h]

theorem updStatus_resolvedAt_set (inc : Incident) (req : UpdateIncidentRequest)
    (now : Nat) (h : req.status = some IncidentStatus.resolved)
    (hne : inc.status ≠ IncidentStatus.resolved) :
    (updStatus inc req now).resolvedAt = some now := by
  unfold updStatus; rw [h]; simp [hne]

theorem updStatus_resolvedAt_already (inc : Incident)
    (req : UpdateIncidentRequest) (now : Nat)
    (h : req.status = some IncidentStatus.resolved)
    (heq : inc.status = IncidentStatus.resolved) :
    (updStatus inc req now).resolvedAt = inc.resolvedAt := by
  unfold updStatus; rw [h]; simp [heq]

theorem updStatus_resolvedAt_other (inc : Incident)
    (req : UpdateIncidentRequest) (now : Nat) (st : IncidentStatus)
    (h : req.status = some st) (hne : st ≠ IncidentStatus.resolved) :
    (updStatus inc req now).resolvedAt = inc.resolvedAt := by
  unfold updStatus; rw [h]; simp [hne]

theorem updateIncident_resolvedAt (inc : Incident)
    (req : UpdateIncidentRequest) (now : Nat) :
    (updateIncident inc req now).resolvedAt =
      (updStatus (updSeverity (updDescription (updTitle inc req) req) req)
        req now).resolvedAt := by
  unfold updateIncident
  simp [updAssigned_resolvedAt, updMetadata_resolvedAt, updTags_resolvedAt,
    updLogs_resolvedAt]

theorem updateIncident_pre_status (inc : Incident)
    (req : UpdateIncidentRequest) :
    (updSeverity (updDescription (updTitle inc req) req) req).status =
      inc.status := by
  simp [updSeverity_status, updDescription_status, updTitle_status]

end PkgService

theorem getAssoc_setAssoc {α : Type} (m : List (List Char × α))
    (k : List Char) (v : α) (h : (getAssoc m k).isSome) :
    getAssoc (setAssoc m k v) k = some v := by
  induction m with
  | nil => simp [getAssoc] at h
  | cons p rest ih =>
      by_cases hp : p.1 == k
      · simp [getAssoc, setAssoc, List.find?, hp]
      · simp only [getAssoc, setAssoc, List.map, List.find?] at *
        rw [if_neg (by simpa using hp)] at *
        simp only [hp] at *
        exact ih h

namespace Fixtures

open Models PkgService

/-- Base incident record used to instantiate universally quantified
theorems at concrete inputs: open, unresolved, no artifacts. -/
def inc0 : Incident :=
  { id := str "INC-1-1", title := str "t", description := str "d",
    source := str "s", severity := Severity.low,
    status := IncidentStatus.open_, logs := [str "l1"], tags := some [str "a"],
    metadata := some [(str "k", Jval.jstr (str "v"))], createdAt := 0,
    updatedAt := 0, resolvedAt := none, assignedTo := str "",
    aiAnalysis := none, rcaDocument := none }

/-- Update request that only sets the given status. -/
def reqSetStatus (st : IncidentStatus) : UpdateIncidentRequest :=
  { emptyUpdateReq with status := some st }

end Fixtures

open Models PkgService Fixtures in
/-- C2 counterexample: the claimed invariant "resolved_at is non-null iff
status ∈ \x7bresolved, closed\x7d" is false on the code.  Updating an open
incident straight to `closed` (pkg `UpdateIncident`, part_010 lines
397-406) assigns status `closed` but never sets `ResolvedAt`, because the
stamp is guarded by `*req.Status == models.StatusResolved` only. -/
theorem updateIncident_closed_leaves_resolvedAt_nil :
    (updateIncident inc0 (reqSetStatus IncidentStatus.closed) 5).status =
      IncidentStatus.closed ∧
    ¬ (((updateIncident inc0 (reqSetStatus IncidentStatus.closed) 5).resolvedAt
          ≠ none) ↔
        ((updateIncident inc0 (reqSetStatus IncidentStatus.closed) 5).status =
            IncidentStatus.resolved ∨
         (updateIncident inc0 (reqSetStatus IncidentStatus.closed) 5).status =
            IncidentStatus.closed)) := by
  constructor
  · rfl
  · decide

open Models in
/-- C2 amended: in the pkg service, `UpdateIncident` stamps `resolved_at`
exactly on a transition into `resolved` from a non-resolved status; a
repeated `resolved` update keeps the old stamp; any other status value
(including `closed` and a revert to `in_progress`) leaves `resolved_at`
untouched, as does a request without a status.  In the internal service,
`UpdateIncidentStatus` to `resolved` or `closed` unconditionally
(re)stamps `resolved_at` with the current time. -/
theorem resolvedAt_transition_spec :
    (∀ (inc : Incident) (req : UpdateIncidentRequest) (now : Nat),
        req.status = some IncidentStatus.resolved →
        inc.status ≠ IncidentStatus.resolved →
        (PkgService.updateIncident inc req now).resolvedAt = some now) ∧
    (∀ (inc : Incident) (req : UpdateIncidentRequest) (now : Nat),
        req.status = some IncidentStatus.resolved →
        inc.status = IncidentStatus.resolved →
        (PkgService.updateIncident inc req now).resolvedAt = inc.resolvedAt) ∧
    (∀ (inc : Incident) (req : UpdateIncidentRequest) (now : Nat)
        (st : IncidentStatus),
        req.status = some st → st ≠ IncidentStatus.resolved →
        (PkgService.updateIncident inc req now).resolvedAt = inc.resolvedAt) ∧
    (∀ (inc : Incident) (req : UpdateIncidentRequest) (now : Nat),
        req.status = none →
        (PkgService.updateIncident inc req now).resolvedAt = inc.resolvedAt) ∧
    (∀ (tbl : IntIncident.ITable) (id : List Char) (st : IncidentStatus)
        (now : Nat),
        (st = IncidentStatus.resolved ∨ st = IncidentStatus.closed) →
        (getAssoc tbl id).isSome →
        ∃ tbl', IntIncident.updateIncidentStatus tbl id st now =
            Except.ok tbl' ∧
          (getAssoc tbl' id).map (fun i => i.resolvedAt) = some (some now)) := by
  refine ⟨?_, ?_, ?_, ?_, ?_⟩
  · intro inc req now h hne
    rw [PkgService.updateIncident_resolvedAt]
    exact PkgService.updStatus_resolvedAt_set _ _ _ h
      (by rw [PkgService.updateIncident_pre_status]; exact hne)
  · intro inc req now h heq
    rw [PkgService.updateIncident_resolvedAt,
      PkgService.updStatus_resolvedAt_already _ _ _ h
        (by rw [PkgService.updateIncident_pre_status]; exact heq),
      PkgService.updSeverity_resolvedAt, PkgService.updDescription_resolvedAt,
      PkgService.updTitle_resolvedAt]
  · intro inc req now st h hne
    rw [PkgService.updateIncident_resolvedAt,
      PkgService.updStatus_resolvedAt_other _ _ _ _ h hne,
      PkgService.updSeverity_resolvedAt, PkgService.updDescription_resolvedAt,
      PkgService.updTitle_resolvedAt]
  · intro inc req now h
    rw [PkgService.updateIncident_resolvedAt, PkgService.updStatus_none _ _ _ h,
      PkgService.updSeverity_resolvedAt, PkgService.updDescription_resolvedAt,
      PkgService.updTitle_resolvedAt]
  · intro tbl id st now hst hsome
    unfold IntIncident.updateIncidentStatus
    match hg : getAssoc tbl id with
    | none => rw [hg] at hsome; simp at hsome
    | some inc =>
        refine ⟨_, rfl, ?_⟩
        rw [getAssoc_setAssoc _ _ _ hsome]
        have : (st = IncidentStatus.resolved ∨ st = IncidentStatus.closed) =
            True := eq_true hst
        simp [hst]

open Models PkgService Fixtures in
/-- C2 witness: the amended resolved-at statement instantiated on concrete
incidents: a fresh open incident resolved at time 7 gets stamp 7; resolving
an already-resolved incident keeps its old stamp 3; reverting to
in-progress keeps the stamp. -/
theorem resolvedAt_transition_spec_witness :
    (updateIncident inc0 (reqSetStatus IncidentStatus.resolved) 7).resolvedAt =
      some 7 ∧
    (updateIncident
      { inc0 with
          status := IncidentStatus.resolved,
          resolvedAt := some 3 }
      (reqSetStatus IncidentStatus.resolved) 9).resolvedAt = some 3 ∧
    (updateIncident
      { inc0 with
          status := IncidentStatus.resolved,
          resolvedAt := some 3 }
      (reqSetStatus IncidentStatus.inProgress) 9).resolvedAt = some 3 := by
  refine ⟨?_, ?_, ?_⟩
  · exact resolvedAt_transition_spec.1 inc0 _ 7 rfl (by decide)
  · exact resolvedAt_transition_spec.2.1 _ _ 9 rfl rfl
  · exact resolvedAt_transition_spec.2.2.1 _ _ 9 IncidentStatus.inProgress rfl
      (by decide)

namespace PkgService

open Models

theorem updTitle_logs (inc : Incident) (req : UpdateIncidentRequest) :
    (updTitle inc req).logs = inc.logs := by
  unfold updTitle; cases req.title <;> rfl

theorem updDescription_logs (inc : Incident) (req : UpdateIncidentRequest) :
    (updDescription inc req).logs = inc.logs := by
  unfold updDescription; cases req.description <;> rfl

theorem updSeverity_logs (inc : Incident) (req : UpdateIncidentRequest) :
    (updSeverity inc req).logs = inc.logs := by
  unfold updSeverity; cases req.severity <;> rfl

theorem updStatus_logs (inc : Incident) (req : UpdateIncidentRequest)
    (now : Nat) : (updStatus inc req now).logs = inc.logs := by
  unfold updStatus; cases req.status
  · rfl
  · dsimp only; split <;> rfl

theorem updTags_logs (inc : Incident) (req : UpdateIncidentRequest) :
    (updTags inc req).logs = inc.logs := by
  unfold updTags; cases req.tags <;> rfl

theorem updMetadata_logs (inc : Incident) (req : UpdateIncidentRequest) :
    (updMetadata inc req).logs = inc.logs := by
  unfold updMetadata; cases req.metadata <;> rfl

theorem updAssigned_logs (inc : Incident) (req : UpdateIncidentRequest) :
    (updAssigned inc req).logs = inc.logs := by
  unfold updAssigned; cases req.assignedTo <;> rfl

theorem updLogs_empty (inc : Incident) (req : UpdateIncidentRequest)
    (h : req.logs = []) : updLogs inc req = inc := by
  unfold updLogs; rw [h]; rfl

theorem updTitle_tags (inc : Incident) (req : UpdateIncidentRequest) :
    (updTitle inc req).tags = inc.tags := by
  unfold updTitle; cases req.title <;> rfl

theorem updDescription_tags (inc : Incident) (req : UpdateIncidentRequest) :
    (updDescription inc req).tags = inc.tags := by
  unfold updDescription; cases req.description <;> rfl

theorem updSeverity_tags (inc : Incident) (req : UpdateIncidentRequest) :
    (updSeverity inc req).tags = inc.tags := by
  unfold updSeverity; cases req.severity <;> rfl

theorem updStatus_tags (inc : Incident) (req : UpdateIncidentRequest)
    (now : Nat) : (updStatus inc req now).tags = inc.tags := by
  unfold updStatus; cases req.status
  · rfl
  · dsimp only; split <;> rfl

theorem updLogs_tags (inc : Incident) (req : UpdateIncidentRequest) :
    (updLogs inc req).tags = inc.tags := by
  unfold updLogs; split <;> rfl

theorem updMetadata_tags (inc : Incident) (req : UpdateIncidentRequest) :
    (updMetadata inc req).tags = inc.tags := by
  unfold updMetadata; cases req.metadata <;> rfl

theorem updAssigned_tags (inc : Incident) (req : UpdateIncidentRequest) :
    (updAssigned inc req).tags = inc.tags := by
  unfold updAssigned; cases req.assignedTo <;> rfl

theorem updTags_set (inc : Incident) (req : UpdateIncidentRequest)
    (ts : List (List Char)) (h : req.tags = some ts) :
    (updTags inc req).tags = some ts := by
  unfold updTags; rw [h]

theorem updTitle_metadata (inc : Incident) (req : UpdateIncidentRequest) :
    (updTitle inc req).metadata = inc.metadata := by
  unfold updTitle; cases req.title <;> rfl

theorem updDescription_metadata (inc : Incident)
    (req : UpdateIncidentRequest) :
    (updDescription inc req).metadata = inc.metadata := by
  unfold updDescription; cases req.description <;> rfl

theorem updSeverity_metadata (inc : Incident) (req : UpdateIncidentRequest) :
    (updSeverity inc req).metadata = inc.metadata := by
  unfold updSeverity; cases req.severity <;> rfl

theorem updStatus_metadata (inc : Incident) (req : UpdateIncidentRequest)
    (now : Nat) : (updStatus inc req now).metadata = inc.metadata := by
  unfold updStatus; cases req.status
  · rfl
  · dsimp only; split <;> rfl

theorem updLogs_metadata (inc : Incident) (req : UpdateIncidentRequest) :
    (updLogs inc req).metadata = inc.metadata := by
  unfold updLogs; split <;> rfl

theorem updTags_metadata (inc : Incident) (req : UpdateIncidentRequest) :
    (updTags inc req).metadata = inc.metadata := by
  unfold updTags; cases req.tags <;> rfl

theorem updAssigned_metadata (inc : Incident) (req : UpdateIncidentRequest) :
    (updAssigned inc req).metadata = inc.metadata := by
  unfold updAssigned; cases req.assignedTo <;> rfl

theorem updMetadata_set (inc : Incident) (req : UpdateIncidentRequest)
    (m : Meta) (h : req.metadata = some m) :
    (updMetadata inc req).metadata = some m := by
  unfold updMetadata; rw [h]

end PkgService

open Models in
/-- C10: in pkg `UpdateIncident`, an empty or absent log list leaves the
stored logs unchanged (the guard is `len(req.Logs) > 0`, part_010 line
408), while a non-nil tags list or metadata map always replaces the stored
value, even when it is empty (the guards are `req.Tags != nil` and
`req.Metadata != nil`, lines 412-418). -/
theorem updateIncident_frame_spec :
    (∀ (inc : Incident) (req : UpdateIncidentRequest) (now : Nat),
        req.logs = [] →
        (PkgService.updateIncident inc req now).logs = inc.logs) ∧
    (∀ (inc : Incident) (req : UpdateIncidentRequest) (now : Nat)
        (ts : List (List Char)),
        req.tags = some ts →
        (PkgService.updateIncident inc req now).tags = some ts) ∧
    (∀ (inc : Incident) (req : UpdateIncidentRequest) (now : Nat) (m : Meta),
        req.metadata = some m →
        (PkgService.updateIncident inc req now).metadata = some m) := by
  refine ⟨?_, ?_, ?_⟩
  · intro inc req now h
    show (PkgService.updAssigned _ _).logs = _
    rw [PkgService.updAssigned_logs, PkgService.updMetadata_logs,
      PkgService.updTags_logs, PkgService.updLogs_empty _ _ h,
      PkgService.updStatus_logs, PkgService.updSeverity_logs,
      PkgService.updDescription_logs, PkgService.updTitle_logs]
  · intro inc req now ts h
    show (PkgService.updAssigned _ _).tags = _
    rw [PkgService.updAssigned_tags, PkgService.updMetadata_tags,
      PkgService.updTags_set _ _ _ h]
  · intro inc req now m h
    show (PkgService.updAssigned _ _).metadata = _
    rw [PkgService.updAssigned_metadata, PkgService.updMetadata_set _ _ _ h]

open Models PkgService Fixtures in
/-- C10 witness: an update carrying no logs, an empty (non-nil) tags list
and an empty (non-nil) metadata map keeps the stored logs and clears tags
and metadata to empty collections. -/
theorem updateIncident_frame_spec_witness :
    (updateIncident inc0
      { emptyUpdateReq with tags := some [], metadata := some [] } 4).logs =
      inc0.logs ∧
    (updateIncident inc0
      { emptyUpdateReq with tags := some [], metadata := some [] } 4).tags =
      some [] ∧
    (updateIncident inc0
      { emptyUpdateReq with tags := some [], metadata := some [] } 4).metadata =
      some [] := by
  refine ⟨?_, ?_, ?_⟩
  · exact updateIncident_frame_spec.1 inc0 _ 4 rfl
  · exact updateIncident_frame_spec.2.1 inc0 _ 4 [] rfl
  · exact updateIncident_frame_spec.2.2 inc0 _ 4 [] rfl

open Models PkgService in
/-- C1: the fallback severity heuristic of pkg `CreateIncident` is total
and never yields `unknown`; on the spec's end-to-end scenario (title
"Database Connection Pool Exhausted", description containing the lowercase
word "critical", no caller-supplied severity) it yields severity
`critical` and status `open`.  However the match is case-SENSITIVE in the
code (no case folding in `hasKeyword`, contradicting the function's own
comments): the same incident with an upper-case title "CRITICAL" and no
lower-case keyword elsewhere is classified `low`, not `critical`. -/
theorem classifySeverity_heuristic_spec :
    (∀ t d, classifySeverity t d ≠ Severity.unknown) ∧
    createSeverityStatus (str "Database Connection Pool Exhausted")
        (str "This is critical, all connections are exhausted") none =
      (Severity.critical, IncidentStatus.open_) ∧
    createSeverityStatus (str "CRITICAL")
        (str "Outage ongoing") none =
      (Severity.low, IncidentStatus.open_) := by
  refine ⟨?_, by decide, by decide⟩
  intro t d
  unfold classifySeverity
  dsimp only
  split_ifs <;> simp

namespace PkgAI

/-- Character class of Go's `unicode.IsSpace`, used by `strings.TrimSpace`. -/
def goIsSpace (c : Char) : Bool :=
  c == ' ' || c == '\t' || c == '\n' || c == '\x0b' || c == '\x0c' ||
  c == '\r' || c.toNat == 0x85 || c.toNat == 0xA0 || c.toNat == 0x1680 ||
  (0x2000 ≤ c.toNat && c.toNat ≤ 0x200A) || c.toNat == 0x2028 ||
  c.toNat == 0x2029 || c.toNat == 0x202F || c.toNat == 0x205F ||
  c.toNat == 0x3000

/-- Embedding of `strings.TrimSpace`. -/
def trimSpaceGo (s : List Char) : List Char :=
  ((s.dropWhile goIsSpace).reverse.dropWhile goIsSpace).reverse

/-- Embedding of `strings.TrimPrefix`: drop `p` when it leads `s`. -/
def dropPre (s p : List Char) : List Char :=
  if p.isPrefixOf s then s.drop p.length else s

/-- Embedding of `strings.TrimSuffix`: drop `p` when it ends `s`. -/
def dropSuf (s p : List Char) : List Char :=
  if p.isSuffixOf s then s.take (s.length - p.length) else s

/-- Embedding of `strings.Index` for a single character: position of the
first occurrence (`none` models Go's `-1`). -/
def goIndex : List Char → Char → Option Nat
  | [], _ => none
  | x :: xs, c => if x = c then some 0 else (goIndex xs c).map (· + 1)

/-- Embedding of `strings.LastIndex` for a single character. -/
def goLastIndex (s : List Char) (c : Char) : Option Nat :=
  (goIndex s.reverse c).map (fun k => s.length - 1 - k)

/-- Whitespace-and-fence preprocessing of `extractJSON`
(app/pkg/ai/parsing.go lines 91-103): trim space, then strip a leading
code fence (```json or plain ```) together with a trailing fence, and trim
again. -/
def stripWrap (resp : List Char) : List Char :=
  let s := trimSpaceGo resp
  if (str "```json").isPrefixOf s then
    trimSpaceGo (dropSuf (dropPre s (str "```json")) (str "```"))
  else if (str "```").isPrefixOf s then
    trimSpaceGo (dropSuf (dropPre s (str "```")) (str "```"))
  else s

/-- Embedding of `extractJSON` (app/pkg/ai/parsing.go lines 89-112): after
preprocessing, slice from the first `{` to the last `}` when both exist in
that order, otherwise return the preprocessed text unchanged. -/
def extractJSON (resp : List Char) : List Char :=
  match goIndex (stripWrap resp) '{', goLastIndex (stripWrap resp) '}' with
  | some i, some j =>
      if i < j then ((stripWrap resp).drop i).take (j + 1 - i)
      else stripWrap resp
  | _, _ => stripWrap resp

/-- JSON whitespace accepted between tokens by `encoding/json`. -/
def jsonWs (c : Char) : Bool :=
  c == ' ' || c == '\t' || c == '\n' || c == '\r'

/-- Skip JSON inter-token whitespace. -/
def skipWs (s : List Char) : List Char := s.dropWhile jsonWs

/-- Decode one escape character of a JSON string literal. -/
def escChar (c : Char) : Option Char :=
  if c = '"' then some '"'
  else if c = '\\' then some '\\'
  else if c = '/' then some '/'
  else if c = 'b' then some '\x08'
  else if c = 'f' then some '\x0c'
  else if c = 'n' then some '\n'
  else if c = 'r' then some '\r'
  else if c = 't' then some '\t'
  else none

/-- Hexadecimal digit value. -/
def hexVal (c : Char) : Option Nat :=
  if '0' ≤ c ∧ c ≤ '9' then some (c.toNat - 48)
  else if 'a' ≤ c ∧ c ≤ 'f' then some (c.toNat - 87)
  else if 'A' ≤ c ∧ c ≤ 'F' then some (c.toNat - 55)
  else none

/-- Body of a JSON string literal after the opening quote: returns the
decoded characters and the remainder after the closing quote.  Unescaped
control characters are rejected, as `encoding/json` does. -/
def parseStrRest : List Char → Option (List Char × List Char)
  | [] => none
  | '"' :: r => some ([], r)
  | '\\' :: 'u' :: h1 :: h2 :: h3 :: h4 :: r =>
      match hexVal h1, hexVal h2, hexVal h3, hexVal h4 with
      | some a, some b, some c, some d =>
          (parseStrRest r).map (fun p =>
            (Char.ofNat (((a * 16 + b) * 16 + c) * 16 + d) :: p.1, p.2))
      | _, _, _, _ => none
  | '\\' :: e :: r =>
      match escChar e with
      | some c => (parseStrRest r).map (fun p => (c :: p.1, p.2))
      | none => none
  | c :: r =>
      if c.toNat < 32 then none
      else (parseStrRest r).map (fun p => (c :: p.1, p.2))

/-- Digit run used by the JSON number grammar. -/
def digitSpan (s : List Char) : List Char × List Char :=
  (s.takeWhile Char.isDigit, s.dropWhile Char.isDigit)

/-- JSON number: optional minus, integer part (`0` or nonzero-led digits),
optional fraction, optional exponent, returned as its lexeme. -/
def parseNum (s : List Char) : Option (List Char × List Char) :=
  let (neg, s1) := match s with
    | '-' :: r => ([('-' : Char)], r)
    | _ => ([], s)
  match s1 with
  | [] => none
  | c :: r =>
      if c = '0' then
        (parseFracExp r).map (fun p => (neg ++ [c] ++ p.1, p.2))
      else if c.isDigit then
        let (ds, r1) := digitSpan r
        (parseFracExp r1).map (fun p => (neg ++ c :: ds ++ p.1, p.2))
      else none
where
  parseFracExp (s : List Char) : Option (List Char × List Char) :=
    let fr : Option (List Char × List Char) :=
      match s with
      | '.' :: r =>
          let (ds, r1) := digitSpan r
          if ds = [] then none else some (('.' : Char) :: ds, r1)
      | _ => some ([], s)
    match fr with
    | none => none
    | some (f, s2) =>
        match s2 with
        | 'e' :: r => parseExpTail f 'e' r
        | 'E' :: r => parseExpTail f 'E' r
        | _ => some (f, s2)
  parseExpTail (f : List Char) (e : Char) (r : List Char) :
      Option (List Char × List Char) :=
    let (sgn, r1) := match r with
      | '+' :: t => ([('+' : Char)], t)
      | '-' :: t => ([('-' : Char)], t)
      | _ => ([], r)
    let (ds, r2) := digitSpan r1
    if ds = [] then none else some (f ++ e :: sgn ++ ds, r2)

mutual

/-- Fuel-bounded recursive-descent JSON value, the model of
`encoding/json`'s grammar. -/
def parseVal : Nat → List Char → Option (Jval × List Char)
  | 0, _ => none
  | fuel + 1, s =>
      match skipWs s with
      | 'n' :: 'u' :: 'l' :: 'l' :: r => some (Jval.jnull, r)
      | 't' :: 'r' :: 'u' :: 'e' :: r => some (Jval.jbool true, r)
      | 'f' :: 'a' :: 'l' :: 's' :: 'e' :: r => some (Jval.jbool false, r)
      | '"' :: r => (parseStrRest r).map (fun p => (Jval.jstr p.1, p.2))
      | '[' :: r => (parseArr fuel r).map (fun p => (Jval.jarr p.1, p.2))
      | '{' :: r => (parseObj fuel r).map (fun p => (Jval.jobj p.1, p.2))
      | r => (parseNum r).map (fun p => (Jval.jnum p.1, p.2))

/-- Array body after `[`. -/
def parseArr : Nat → List Char → Option (List Jval × List Char)
  | 0, _ => none
  | fuel + 1, s =>
      match skipWs s with
      | ']' :: r => some ([], r)
      | _ =>
          (parseVal fuel s).bind (fun p => parseArrTail fuel p.2 [p.1])

/-- Array continuation: `,` element or `]`. -/
def parseArrTail : Nat → List Char → List Jval →
    Option (List Jval × List Char)
  | 0, _, _ => none
  | fuel + 1, s, acc =>
      match skipWs s with
      | ',' :: r =>
          (parseVal fuel r).bind (fun p => parseArrTail fuel p.2 (acc ++ [p.1]))
      | ']' :: r => some (acc, r)
      | _ => none

/-- Object body after `\x7b`. -/
def parseObj : Nat → List Char → Option (List (List Char × Jval) × List Char)
  | 0, _ => none
  | fuel + 1, s =>
      match skipWs s with
      | '}' :: r => some ([], r)
      | _ =>
          (parseMember fuel s).bind (fun p => parseObjTail fuel p.2 [p.1])

/-- Object continuation: `,` member or `\x7d`. -/
def parseObjTail : Nat → List Char → List (List Char × Jval) →
    Option (List (List Char × Jval) × List Char)
  | 0, _, _ => none
  | fuel + 1, s, acc =>
      match skipWs s with
      | ',' :: r =>
          (parseMember fuel r).bind (fun p => parseObjTail fuel p.2 (acc ++ [p.1]))
      | '}' :: r => some (acc, r)
      | _ => none

/-- One `"key": value` member. -/
def parseMember : Nat → List Char →
    Option ((List Char × Jval) × List Char)
  | 0, _ => none
  | fuel + 1, s =>
      match skipWs s with
      | '"' :: r =>
          (parseStrRest r).bind (fun kp =>
            match skipWs kp.2 with
            | ':' :: r2 => (parseVal fuel r2).map (fun p => ((kp.1, p.1), p.2))
            | _ => none)
      | _ => none

end

/-- Embedding of `json.Unmarshal(data, &m)` for
`m : map[string]interface{}`: parse one JSON value, require only
whitespace after it, and require the top-level value to be an object
(yielding the field list) or `null` (yielding the nil map, `none`);
any other top-level type is a decode error (outer `none`). -/
def unmarshalMap (s : List Char) : Option (Option Meta) :=
  match parseVal (2 * s.length + 2) s with
  | none => none
  | some (v, rest) =>
      if skipWs rest = [] then
        match v with
        | Jval.jobj fs => some (some fs)
        | Jval.jnull => some none
        | _ => none
      else none

/-- Lookup in the Go map built from a JSON object: on duplicate keys,
`encoding/json` keeps the last binding. -/
def mapGet (fs : Meta) (k : List Char) : Option Jval :=
  (fs.reverse.find? (fun p => p.1 == k)).map (fun p => p.2)

/-- Embedding of `getStringValue` (parsing.go lines 115-122): a present
string-typed field, else the empty string; a nil map always misses. -/
def getStringValue (data : Option Meta) (key : List Char) : List Char :=
  match data with
  | none => []
  | some fs =>
      match mapGet fs key with
      | some (Jval.jstr s) => s
      | _ => []

/-- Embedding of `getStringSlice` (parsing.go lines 125-138): a present
array-typed field contributes its string-typed items in order, anything
else gives the empty slice. -/
def getStringSlice (data : Option Meta) (key : List Char) :
    List (List Char) :=
  match data with
  | none => []
  | some fs =>
      match mapGet fs key with
      | some (Jval.jarr items) =>
          items.filterMap (fun v =>
            match v with
            | Jval.jstr s => some s
            | _ => none)
      | _ => []

end PkgAI

namespace PkgAI

/-- Embedding of `ai.AnalysisResponse` (part_009): the suggested severity
is a plain string in this package. -/
structure AnalysisResponse where
  summary : List Char
  findings : List (List Char)
  rootCauses : List (List Char)
  recommendedActions : List (List Char)
  suggestedSeverity : List Char
  rawResponse : List Char
deriving DecidableEq, Repr

/-- Embedding of `ai.RCAResponse` (part_009): the timeline is a plain
string in this package. -/
structure RCAResponse where
  timeline : List Char
  rootCause : List Char
  impact : List Char
  immediateResolution : List Char
  preventiveMeasures : List (List Char)
  lessonsLearned : List (List Char)
  rawResponse : List Char
deriving DecidableEq, Repr

/-- Embedding of `ai.SummarizeResponse` (part_009). -/
structure SummarizeResponse where
  summary : List Char
  keyInsights : List (List Char)
  alerts : List (List Char)
  rawResponse : List Char
deriving DecidableEq, Repr

/-- Embedding of `parseAnalysisResponse` (parsing.go lines 10-34): decode
failure falls back to a non-error response whose summary is the raw
completion; the `error` slot of the Go signature is modelled by `Except`
and is never used. -/
def parseAnalysisResponse (rawResp : List Char) :
    Except (List Char) AnalysisResponse :=
  let jsonStr := extractJSON rawResp
  match unmarshalMap jsonStr with
  | none =>
      Except.ok
        { summary := rawResp, findings := [], rootCauses := [],
          recommendedActions := [], suggestedSeverity := str "unknown",
          rawResponse := rawResp }
  | some data =>
      Except.ok
        { summary := getStringValue data (str "summary"),
          findings := getStringSlice data (str "findings"),
          rootCauses := getStringSlice data (str "root_causes"),
          recommendedActions := getStringSlice data (str "recommended_actions"),
          suggestedSeverity := getStringValue data (str "suggested_severity"),
          rawResponse := rawResp }

/-- Embedding of `parseRCAResponse` (parsing.go lines 36-64): decode
failure falls back to a non-error response whose timeline is the raw
completion. -/
def parseRCAResponse (rawResp : List Char) :
    Except (List Char) RCAResponse :=
  let jsonStr := extractJSON rawResp
  match unmarshalMap jsonStr with
  | none =>
      Except.ok
        { timeline := rawResp, rootCause := [], impact := [],
          immediateResolution := [], preventiveMeasures := [],
          lessonsLearned := [], rawResponse := rawResp }
  | some data =>
      Except.ok
        { timeline := getStringValue data (str "timeline"),
          rootCause := getStringValue data (str "root_cause"),
          impact := getStringValue data (str "impact"),
          immediateResolution := getStringValue data (str "immediate_resolution"),
          preventiveMeasures := getStringSlice data (str "preventive_measures"),
          lessonsLearned := getStringSlice data (str "lessons_learned"),
          rawResponse := rawResp }

/-- Embedding of `parseSummarizeResponse` (parsing.go lines 67-86): decode
failure falls back to a non-error response whose summary is the raw
completion. -/
def parseSummarizeResponse (rawResp : List Char) :
    Except (List Char) SummarizeResponse :=
  let jsonStr := extractJSON rawResp
  match unmarshalMap jsonStr with
  | none =>
      Except.ok
        { summary := rawResp, keyInsights := [], alerts := [],
          rawResponse := rawResp }
  | some data =>
      Except.ok
        { summary := getStringValue data (str "summary"),
          keyInsights := getStringSlice data (str "key_insights"),
          alerts := getStringSlice data (str "alerts"),
          rawResponse := rawResp }

end PkgAI

example :
    PkgAI.extractJSON (str "no json here at all") = str "no json here at all" := by
  decide
example : PkgAI.unmarshalMap (str "no json here at all") = none := by rfl

example :
    PkgAI.parseAnalysisResponse
      (str "```json\n\x7b\"summary\":\"x\",\"findings\":[\"a\"]\x7d\n```") =
    Except.ok
      { summary := str "x", findings := [str "a"], rootCauses := [],
        recommendedActions := [], suggestedSeverity := [],
        rawResponse :=
          str "```json\n\x7b\"summary\":\"x\",\"findings\":[\"a\"]\x7d\n```" } := by
  rfl
example :
    PkgAI.parseAnalysisResponse (str "pre \x7b\"summary\":\"y\"\x7d post") =
    Except.ok
      { summary := str "y", findings := [], rootCauses := [],
        recommendedActions := [], suggestedSeverity := [],
        rawResponse := str "pre \x7b\"summary\":\"y\"\x7d post" } := by
  rfl

/-- C4: the three response parsers of `app/pkg/ai/parsing.go` never return
an error, and whenever strict JSON decoding of the extracted candidate
fails, each returns the documented best-effort fallback: primary text
field (summary / timeline / summary) equal to the raw completion, every
list field empty. -/
theorem parse_fallback_spec :
    (∀ raw, (∃ r, PkgAI.parseAnalysisResponse raw = Except.ok r) ∧
        (∃ r, PkgAI.parseRCAResponse raw = Except.ok r) ∧
        (∃ r, PkgAI.parseSummarizeResponse raw = Except.ok r)) ∧
    (∀ raw, PkgAI.unmarshalMap (PkgAI.extractJSON raw) = none →
        PkgAI.parseAnalysisResponse raw =
          Except.ok
            { summary := raw, findings := [], rootCauses := [],
              recommendedActions := [], suggestedSeverity := str "unknown",
              rawResponse := raw } ∧
        PkgAI.parseRCAResponse raw =
          Except.ok
            { timeline := raw, rootCause := [], impact := [],
              immediateResolution := [], preventiveMeasures := [],
              lessonsLearned := [], rawResponse := raw } ∧
        PkgAI.parseSummarizeResponse raw =
          Except.ok
            { summary := raw, keyInsights := [], alerts := [],
              rawResponse := raw }) := by
  constructor
  · intro raw
    refine ⟨?_, ?_, ?_⟩
    · cases hp : PkgAI.parseAnalysisResponse raw with
      | ok r => exact ⟨r, rfl⟩
      | error e =>
          cases h : PkgAI.unmarshalMap (PkgAI.extractJSON raw) <;>
            simp only [PkgAI.parseAnalysisResponse, h] at hp <;>
            exact Except.noConfusion hp
    · cases hp : PkgAI.parseRCAResponse raw with
      | ok r => exact ⟨r, rfl⟩
      | error e =>
          cases h : PkgAI.unmarshalMap (PkgAI.extractJSON raw) <;>
            simp only [PkgAI.parseRCAResponse, h] at hp <;>
            exact Except.noConfusion hp
    · cases hp : PkgAI.parseSummarizeResponse raw with
      | ok r => exact ⟨r, rfl⟩
      | error e =>
          cases h : PkgAI.unmarshalMap (PkgAI.extractJSON raw) <;>
            simp only [PkgAI.parseSummarizeResponse, h] at hp <;>
            exact Except.noConfusion hp
  · intro raw h
    refine ⟨?_, ?_, ?_⟩
    · simp only [PkgAI.parseAnalysisResponse, h]
    · simp only [PkgAI.parseRCAResponse, h]
    · simp only [PkgAI.parseSummarizeResponse, h]

/-- C4 witness: the fallback conjunct applied to the concrete completion
"no json here at all", which has no JSON candidate and fails decoding. -/
theorem parse_fallback_spec_witness :
    PkgAI.parseAnalysisResponse (str "no json here at all") =
      Except.ok
        { summary := str "no json here at all", findings := [],
          rootCauses := [], recommendedActions := [],
          suggestedSeverity := str "unknown",
          rawResponse := str "no json here at all" } ∧
    PkgAI.parseRCAResponse (str "no json here at all") =
      Except.ok
        { timeline := str "no json here at all", rootCause := [],
          impact := [], immediateResolution := [], preventiveMeasures := [],
          lessonsLearned := [], rawResponse := str "no json here at all" } ∧
    PkgAI.parseSummarizeResponse (str "no json here at all") =
      Except.ok
        { summary := str "no json here at all", keyInsights := [],
          alerts := [], rawResponse := str "no json here at all" } :=
  parse_fallback_spec.2 (str "no json here at all") (by rfl)

namespace PkgAI

theorem goIndex_append_first (a r : List Char) (c : Char) (h : c ∉ a) :
    goIndex (a ++ c :: r) c = some a.length := by
  induction a with
  | nil => simp [goIndex]
  | cons x xs ih =>
      have hx : ¬ (x = c) := fun e => h (by simp [e])
      have hxs : c ∉ xs := fun hm => h (List.mem_cons_of_mem _ hm)
      simp [goIndex, hx, ih hxs]

theorem goLastIndex_split (a m b : List Char) (h : '}' ∉ b) :
    goLastIndex (a ++ '{' :: (m ++ '}' :: b)) '}' =
      some (a.length + m.length + 1) := by
  unfold goLastIndex
  have hrev : (a ++ '{' :: (m ++ '}' :: b)).reverse =
      b.reverse ++ '}' :: (m.reverse ++ '{' :: a.reverse) := by
    simp
  rw [hrev, goIndex_append_first _ _ _ (by simpa using h)]
  simp only [Option.map_some', Option.some.injEq, List.length_append,
    List.length_cons, List.length_reverse]
  omega

end PkgAI

/-- C5: `extractJSON` recovers JSON wrapped in noise.  Concretely, the
spec's two test inputs parse to summary "x" with findings ["a"], and to
summary "y"; in general, whenever the trimmed and fence-stripped text
decomposes as `a ++ "\x7b" ++ m ++ "\x7d" ++ b` with no `\x7b` in `a` and
no `\x7d` in `b` (i.e. the named braces are the first `\x7b` and the last
`\x7d`), the extracted JSON candidate is exactly `"\x7b" ++ m ++ "\x7d"`. -/
theorem extractJSON_recovery_spec :
    PkgAI.parseAnalysisResponse
        (str "```json\n\x7b\"summary\":\"x\",\"findings\":[\"a\"]\x7d\n```") =
      Except.ok
        { summary := str "x", findings := [str "a"], rootCauses := [],
          recommendedActions := [], suggestedSeverity := [],
          rawResponse :=
            str "```json\n\x7b\"summary\":\"x\",\"findings\":[\"a\"]\x7d\n```" } ∧
    PkgAI.parseAnalysisResponse (str "prefix \x7b\"summary\":\"y\"\x7d suffix") =
      Except.ok
        { summary := str "y", findings := [], rootCauses := [],
          recommendedActions := [], suggestedSeverity := [],
          rawResponse := str "prefix \x7b\"summary\":\"y\"\x7d suffix" } ∧
    (∀ s a m b, PkgAI.stripWrap s = a ++ '{' :: (m ++ '}' :: b) →
        '{' ∉ a → '}' ∉ b →
        PkgAI.extractJSON s = '{' :: (m ++ ['}'])) := by
  refine ⟨by rfl, by rfl, ?_⟩
  intro s a m b hsplit ha hb
  have h1 : PkgAI.goIndex (PkgAI.stripWrap s) '{' = some a.length := by
    rw [hsplit]; exact PkgAI.goIndex_append_first _ _ _ ha
  have h2 : PkgAI.goLastIndex (PkgAI.stripWrap s) '}' =
      some (a.length + m.length + 1) := by
    rw [hsplit]; exact PkgAI.goLastIndex_split _ _ _ hb
  unfold PkgAI.extractJSON
  rw [h1, h2]
  dsimp only
  rw [if_pos (by omega)]
  have harith : a.length + m.length + 1 + 1 - a.length = m.length + 2 := by
    omega
  have hassoc : a ++ '{' :: (m ++ '}' :: b) =
      a ++ (('{' :: m ++ ['}']) ++ b) := by simp
  rw [harith, hsplit, hassoc, List.drop_left,
    List.take_left' (by simp [List.length_append])]
  simp

/-- C5 witness: the general first-to-last-brace conjunct applied to the
concrete input "prefix \x7b..\x7d suffix". -/
theorem extractJSON_recovery_spec_witness :
    PkgAI.extractJSON (str "prefix \x7b\"summary\":\"y\"\x7d suffix") =
      '{' :: (str "\"summary\":\"y\"" ++ ['}']) :=
  extractJSON_recovery_spec.2.2 (str "prefix \x7b\"summary\":\"y\"\x7d suffix")
    (str "prefix ") (str "\"summary\":\"y\"") (str " suffix")
    (by decide) (by decide) (by decide)

/-- Lock and AI-call events emitted by the service operations; the model
of `mu.Lock/Unlock`, `mu.RLock/RUnlock` and one outbound AI client call. -/
inductive Ev where
  | lockEv
  | unlockEv
  | rlockEv
  | runlockEv
  | aiEv
deriving DecidableEq, Repr

/-- Lock depth in front of each AI-call event of a trace, scanning left to
right with the running number of currently held locks (read or write). -/
def aiDepths : List Ev → Nat → List Nat
  | [], _ => []
  | Ev.lockEv :: tr, d => aiDepths tr (d + 1)
  | Ev.rlockEv :: tr, d => aiDepths tr (d + 1)
  | Ev.unlockEv :: tr, d => aiDepths tr (d - 1)
  | Ev.runlockEv :: tr, d => aiDepths tr (d - 1)
  | Ev.aiEv :: tr, d => d :: aiDepths tr d

/-- Association-list insert-or-update, the model of a Go map assignment
`m[k] = v`. -/
def putAssoc {α : Type} (m : List (List Char × α)) (k : List Char) (v : α) :
    List (List Char × α) :=
  if (getAssoc m k).isSome then setAssoc m k v else m ++ [(k, v)]

/-- Decimal digit string of a natural number, the model of Go's `%d`
formatting for the nonnegative values produced by `time.Now().Unix()` and
the store counter. -/
def natStr (n : Nat) : List Char :=
  if n = 0 then ['0']
  else (Nat.digits 10 n).reverse.map (fun d => Char.ofNat (48 + d))

namespace PkgAI

/-- Embedding of `ai.AnalysisRequest` (part_009). -/
structure AnalysisRequest where
  incidentTitle : List Char
  incidentDesc : List Char
  logs : List (List Char)
deriving DecidableEq, Repr

/-- Embedding of `ai.RCARequest` (part_009). -/
structure RCARequest where
  incidentTitle : List Char
  incidentDesc : List Char
  analysis : AnalysisResponse
  timeline : List (List Char)
deriving DecidableEq, Repr

/-- Embedding of `ai.SummarizeRequest` (part_009). -/
structure SummarizeRequest where
  logs : List (List Char)
deriving DecidableEq, Repr

/-- Behavioural model of a pkg `ai.Client` implementation: each method is
a pure function from the request to the provider's reply or error, plus
the `Provider()`/`Model()` accessors. -/
structure ClientModel where
  analyzeIncident : AnalysisRequest → Except (List Char) AnalysisResponse
  generateRCA : RCARequest → Except (List Char) RCAResponse
  summarizeLogs : SummarizeRequest → Except (List Char) SummarizeResponse
  provider : List Char
  model : List Char

end PkgAI

namespace PkgService

open Models

/-- Store of the pkg service (part_010 lines 270-274): the incident map
and the ID counter, both guarded by one RWMutex. -/
structure PStore where
  incidents : List (List Char × Incident)
  counter : Nat

/-- Embedding of `generateID` (part_010 lines 569-575): under the
exclusive lock, increment the counter and format
`fmt.Sprintf("INC-%d-%d", time.Now().Unix(), s.store.counter)`; the
current Unix time is the `t` argument. -/
def generateID (store : PStore) (t : Nat) : List Char × PStore :=
  let c := store.counter + 1
  (str "INC-" ++ natStr t ++ '-' :: natStr c, { store with counter := c })

/-- Successive `CreateIncident` ID generations: each call draws an
arbitrary current time from `ts` and threads the store. -/
def runGenerateIDs (store : PStore) : List Nat → List (List Char)
  | [] => []
  | t :: rest =>
      let p := generateID store t
      p.1 :: runGenerateIDs p.2 rest

/-- Embedding of `buildTimeline` (part_010 lines 616-626).  The RFC3339
rendering of a timestamp is modelled as its decimal form; only presence
and order of the entries matter to the verified properties. -/
def buildTimeline (inc : Incident) : List (List Char) :=
  let timeline := [str "Created: " ++ natStr inc.createdAt]
  match inc.resolvedAt with
  | some t => timeline ++ [str "Resolved: " ++ natStr t]
  | none => timeline

/-- Embedding of `GetIncident` (part_010 lines 339-349): map read under
the read lock; the error case is `incident not found`. -/
def getIncident (store : PStore) (id : List Char) :
    Option Incident × List Ev :=
  (getAssoc store.incidents id, [Ev.rlockEv, Ev.runlockEv])

/-- Embedding of `AnalyzeIncident` (part_010 lines 446-486).  Mirrors the
Go control flow: `GetIncident` (read lock, released), on MISS return the
NotFound error before any AI call; otherwise one AI call with
title/description/logs and, on success, write-back of the whole AIAnalysis
plus `UpdatedAt` under the exclusive lock.  The Go function returns
`(incident, err)`; the pair of options mirrors both slots.  The store
mutation models the write through the shared `*models.Incident` pointer. -/
def analyzeIncident (store : PStore) (client : PkgAI.ClientModel)
    (id : List Char) (now : Nat) :
    (Option Incident × Option (List Char)) × PStore × List Ev :=
  let g := getIncident store id
  match g.1 with
  | none =>
      ((none, some (str "incident not found: " ++ id)), store, g.2)
  | some inc =>
      match client.analyzeIncident
          { incidentTitle := inc.title, incidentDesc := inc.description,
            logs := inc.logs } with
      | Except.error e => ((some inc, some e), store, g.2 ++ [Ev.aiEv])
      | Except.ok analysis =>
          let inc' :=
            { inc with
                aiAnalysis := some
                  { summary := analysis.summary,
                    findings := analysis.findings,
                    rootCauses := analysis.rootCauses,
                    recommendedActions := analysis.recommendedActions,
                    severitySuggestion := analysis.suggestedSeverity,
                    generatedAt := now, model := client.model,
                    provider := client.provider },
                updatedAt := now }
          ((some inc', none),
            { store with incidents := setAssoc store.incidents id inc' },
            g.2 ++ [Ev.aiEv, Ev.lockEv, Ev.unlockEv])

/-- Embedding of `GenerateRCA` (part_010 lines 489-542).  The existing
AIAnalysis is copied into the request when present; otherwise the request
carries the ZERO-VALUED `ai.AnalysisResponse` — this implementation never
runs the analysis step first and never touches `incident.AIAnalysis`. -/
def generateRCA (store : PStore) (client : PkgAI.ClientModel)
    (id : List Char) (now : Nat) :
    (Option Incident × Option (List Char)) × PStore × List Ev :=
  let g := getIncident store id
  match g.1 with
  | none =>
      ((none, some (str "incident not found: " ++ id)), store, g.2)
  | some inc =>
      let analysis : PkgAI.AnalysisResponse :=
        match inc.aiAnalysis with
        | some a =>
            { summary := a.summary, findings := a.findings,
              rootCauses := a.rootCauses,
              recommendedActions := a.recommendedActions,
              suggestedSeverity := a.severitySuggestion, rawResponse := [] }
        | none =>
            { summary := [], findings := [], rootCauses := [],
              recommendedActions := [], suggestedSeverity := [],
              rawResponse := [] }
      match client.generateRCA
          { incidentTitle := inc.title, incidentDesc := inc.description,
            analysis := analysis, timeline := buildTimeline inc } with
      | Except.error e => ((some inc, some e), store, g.2 ++ [Ev.aiEv])
      | Except.ok rca =>
          let inc' :=
            { inc with
                rcaDocument := some
                  { timeline := buildTimeline inc,
                    rootCause := rca.rootCause, impact := rca.impact,
                    immediateResolution := rca.immediateResolution,
                    preventiveMeasures := rca.preventiveMeasures,
                    lessonsLearned := rca.lessonsLearned,
                    generatedAt := now, model := client.model,
                    provider := client.provider },
                updatedAt := now }
          ((some inc', none),
            { store with incidents := setAssoc store.incidents id inc' },
            g.2 ++ [Ev.aiEv, Ev.lockEv, Ev.unlockEv])

end PkgService

namespace IntIncident

open Models

/-- Behavioural model of an internal `ai.Client` (app/internal/ai
client.go, appended to part_005): methods take the incident (and prior
analysis) and return pkg-models artifacts or an error; `ClassifySeverity`
returns a severity string. -/
structure IClientModel where
  analyzeIncident : IIncident → Except (List Char) AIAnalysis
  generateRCA : IIncident → AIAnalysis → Except (List Char) RCADocument
  summarizeLogs : List (List Char) → Except (List Char) (List Char)
  classifySeverity : IIncident → Except (List Char) (List Char)

/-- State of the internal `incident.Service` (part_005 lines 14-21):
separate incident, analysis and RCA maps plus the optional AI client, all
guarded by one RWMutex. -/
structure IService where
  incidents : ITable
  analyses : List (List Char × AIAnalysis)
  rcas : List (List Char × RCADocument)
  client : Option IClientModel

/-- Embedding of the internal `CreateIncidentRequest` as used by
part_005: severity is a plain string (empty string meaning "none"). -/
structure ICreateRequest where
  title : List Char
  description : List Char
  severity : List Char
  source : List Char
  alertData : Option Meta
  logs : List (List Char)

/-- Embedding of the internal `CreateIncident` (part_005 lines 34-64).
The WHOLE body runs under the exclusive lock (`s.mu.Lock()` with a
deferred unlock), including the `ClassifySeverity` AI call made when the
request carries no severity and a client is configured; on AI error the
severity defaults to medium.  `uuid` models `uuid.New().String()`. -/
def createIncident (svc : IService) (req : ICreateRequest)
    (uuid : List Char) (now : Nat) :
    (IIncident × IService) × List Ev :=
  let inc : IIncident :=
    { id := uuid, title := req.title, description := req.description,
      severity := req.severity, status := IncidentStatus.open_,
      source := req.source, alertData := req.alertData, logs := req.logs,
      createdAt := now, updatedAt := now, resolvedAt := none }
  let step : IIncident × List Ev :=
    match decide (inc.severity = []), svc.client with
    | true, some cl =>
        (match cl.classifySeverity inc with
          | Except.ok sv => { inc with severity := sv }
          | Except.error _ => { inc with severity := str "medium" },
         [Ev.aiEv])
    | _, _ => (inc, [])
  ((step.1, { svc with incidents := putAssoc svc.incidents uuid step.1 }),
    Ev.lockEv :: step.2 ++ [Ev.unlockEv])

/-- Embedding of the internal `AnalyzeIncident` (part_005 lines 114-139):
read under the read lock (released), NotFound before anything else, then
the not-configured check, then one AI call, then the write of the analysis
into the `analyses` map under the exclusive lock. -/
def analyzeIncident (svc : IService) (id : List Char) :
    Except (List Char) AIAnalysis × IService × List Ev :=
  match getAssoc svc.incidents id with
  | none =>
      (Except.error (str "incident not found: " ++ id), svc,
        [Ev.rlockEv, Ev.runlockEv])
  | some inc =>
      match svc.client with
      | none =>
          (Except.error (str "AI client not configured"), svc,
            [Ev.rlockEv, Ev.runlockEv])
      | some cl =>
          match cl.analyzeIncident inc with
          | Except.error e =>
              (Except.error (str "failed to analyze incident: " ++ e), svc,
                [Ev.rlockEv, Ev.runlockEv, Ev.aiEv])
          | Except.ok analysis =>
              (Except.ok analysis,
                { svc with analyses := putAssoc svc.analyses id analysis },
                [Ev.rlockEv, Ev.runlockEv, Ev.aiEv, Ev.lockEv, Ev.unlockEv])

/-- Embedding of the internal `GenerateRCA` (part_005 lines 155-190):
one read-locked read of both maps, NotFound / not-configured checks, and —
when no analysis exists yet — an internal call of the SAME
`AnalyzeIncident` code path before the RCA call; the RCA is stored under
the exclusive lock. -/
def generateRCA (svc : IService) (id : List Char) :
    Except (List Char) RCADocument × IService × List Ev :=
  match getAssoc svc.incidents id with
  | none =>
      (Except.error (str "incident not found: " ++ id), svc,
        [Ev.rlockEv, Ev.runlockEv])
  | some inc =>
      match svc.client with
      | none =>
          (Except.error (str "AI client not configured"), svc,
            [Ev.rlockEv, Ev.runlockEv])
      | some cl =>
          let prior : Except (List Char) AIAnalysis × IService × List Ev :=
            match getAssoc svc.analyses id with
            | some analysis => (Except.ok analysis, svc, [])
            | none =>
                let r := analyzeIncident svc id
                (match r.1 with
                  | Except.error e =>
                      Except.error (str "failed to analyze incident for RCA: "
                        ++ e)
                  | Except.ok analysis => Except.ok analysis,
                 r.2.1, r.2.2)
          match prior.1 with
          | Except.error e =>
              (Except.error e, prior.2.1,
                [Ev.rlockEv, Ev.runlockEv] ++ prior.2.2)
          | Except.ok analysis =>
              match cl.generateRCA inc analysis with
              | Except.error e =>
                  (Except.error (str "failed to generate RCA: " ++ e),
                    prior.2.1,
                    [Ev.rlockEv, Ev.runlockEv] ++ prior.2.2 ++ [Ev.aiEv])
              | Except.ok rca =>
                  (Except.ok rca,
                    { prior.2.1 with
                        rcas := putAssoc (prior.2.1).rcas id rca },
                    [Ev.rlockEv, Ev.runlockEv] ++ prior.2.2 ++
                      [Ev.aiEv, Ev.lockEv, Ev.unlockEv])

end IntIncident

namespace PkgAI

/-- Embedding of `ai.ClientConfig` (part_009 lines 18-25). -/
structure ClientConfig where
  provider : List Char
  apiKey : List Char
  model : List Char
  timeout : Int
  temperature : Float
  maxTokens : Int

/-- Configuration errors of the pkg factory (`ErrNoAPIKey`,
`ErrProviderNotSupported`, part_009 lines 100-104). -/
inductive AIErr where
  | noAPIKey
  | providerNotSupported (p : List Char)
deriving DecidableEq, Repr

/-- Constructed pkg `OpenAIClient` (part_008 lines 15-23), without the
HTTP plumbing. -/
structure OpenAIClient where
  apiKey : List Char
  model : List Char
  timeout : Int
  temperature : Float
  maxTokens : Int

/-- Constructed pkg `AnthropicClient` (src/app/pkg/ai/anthropic.go). -/
structure AnthropicClient where
  apiKey : List Char
  model : List Char
  timeout : Int
  temperature : Float
  maxTokens : Int

/-- Result of the pkg factory: one of the two concrete clients. -/
inductive Client where
  | openai (c : OpenAIClient)
  | anthropic (c : AnthropicClient)

/-- Embedding of the pkg `NewOpenAIClient` (part_008 lines 53-90):
empty key is `ErrNoAPIKey`; model, timeout, temperature and max-tokens
get defaults when zero-valued. -/
def NewOpenAIClient (cfg : ClientConfig) : Except AIErr Client :=
  if cfg.apiKey = [] then Except.error AIErr.noAPIKey
  else
    Except.ok (Client.openai
      { apiKey := cfg.apiKey,
        model := if cfg.model = [] then str "gpt-4" else cfg.model,
        timeout := if cfg.timeout = 0 then 60 else cfg.timeout,
        temperature := if cfg.temperature == 0 then 0.7 else cfg.temperature,
        maxTokens := if cfg.maxTokens = 0 then 2000 else cfg.maxTokens })

/-- Embedding of the pkg `NewAnthropicClient`
(src/app/pkg/ai/anthropic.go lines 54-86). -/
def NewAnthropicClient (cfg : ClientConfig) : Except AIErr Client :=
  if cfg.apiKey = [] then Except.error AIErr.noAPIKey
  else
    Except.ok (Client.anthropic
      { apiKey := cfg.apiKey,
        model := if cfg.model = [] then str "claude-3-5-sonnet-20241022"
          else cfg.model,
        timeout := if cfg.timeout = 0 then 60 else cfg.timeout,
        temperature := if cfg.temperature == 0 then 0.7 else cfg.temperature,
        maxTokens := if cfg.maxTokens = 0 then 2000 else cfg.maxTokens })

/-- Embedding of the pkg `NewClient` (part_009 lines 114-127): empty API
key errors first; then the provider switch, whose default case is
`ErrProviderNotSupported`. -/
def NewClient (cfg : ClientConfig) : Except AIErr Client :=
  if cfg.apiKey = [] then Except.error AIErr.noAPIKey
  else if cfg.provider = str "openai" then NewOpenAIClient cfg
  else if cfg.provider = str "anthropic" then NewAnthropicClient cfg
  else Except.error (AIErr.providerNotSupported cfg.provider)

end PkgAI

namespace IntAI

/-- Embedding of the internal `ai.Config` (end of part_005). -/
structure Config where
  provider : List Char
  openAIKey : List Char
  anthropicKey : List Char
  openAIModel : List Char
  anthropicModel : List Char
deriving DecidableEq, Repr

/-- Constructed internal `OpenAIClient` (part_007 lines 17-21), without
the HTTP plumbing. -/
structure OpenAIClient where
  apiKey : List Char
  model : List Char
deriving DecidableEq, Repr

/-- Constructed internal `AnthropicClient` (part_006). -/
structure AnthropicClient where
  apiKey : List Char
  model : List Char
deriving DecidableEq, Repr

/-- Result of the internal factory. -/
inductive Client where
  | openai (c : OpenAIClient)
  | anthropic (c : AnthropicClient)
deriving DecidableEq, Repr

/-- Embedding of the internal `NewOpenAIClient` (part_007 lines 24-38). -/
def NewOpenAIClient (apiKey model : List Char) : Except (List Char) Client :=
  if apiKey = [] then Except.error (str "OpenAI API key is required")
  else
    Except.ok (Client.openai
      { apiKey := apiKey,
        model := if model = [] then str "gpt-4" else model })

/-- Embedding of the internal `NewAnthropicClient` (part_006 lines
52-66). -/
def NewAnthropicClient (apiKey model : List Char) :
    Except (List Char) Client :=
  if apiKey = [] then Except.error (str "Anthropic API key is required")
  else
    Except.ok (Client.anthropic
      { apiKey := apiKey,
        model := if model = [] then str "claude-3-5-sonnet-20241022"
          else model })

/-- Embedding of the internal `NewClient` (end of part_005): a switch on
the provider whose DEFAULT case silently builds the OpenAI client. -/
def NewClient (cfg : Config) : Except (List Char) Client :=
  if cfg.provider = str "openai" then
    NewOpenAIClient cfg.openAIKey cfg.openAIModel
  else if cfg.provider = str "anthropic" then
    NewAnthropicClient cfg.anthropicKey cfg.anthropicModel
  else NewOpenAIClient cfg.openAIKey cfg.openAIModel

end IntAI

/-- C8 counterexample: the internal factory, fed the unrecognized provider
"gemini" with a non-empty OpenAI key, silently returns an OpenAI client
instead of a configuration error. -/
theorem newClient_internal_silent_default :
    IntAI.NewClient
        { provider := str "gemini", openAIKey := str "sk-test",
          anthropicKey := [], openAIModel := str "gpt-4o",
          anthropicModel := [] } =
      Except.ok (IntAI.Client.openai
        { apiKey := str "sk-test", model := str "gpt-4o" }) := by
  rfl

/-- C8 amended: the pkg factory (`app/pkg/ai`) does return configuration
errors — `ErrNoAPIKey` on a missing key, `ErrProviderNotSupported` on any
unrecognized provider — but the internal factory (`app/internal/ai`)
silently falls back to constructing the OpenAI client on an unrecognized
provider. -/
theorem newClient_provider_dispatch_spec :
    (∀ cfg : PkgAI.ClientConfig, cfg.apiKey ≠ [] →
        cfg.provider ≠ str "openai" → cfg.provider ≠ str "anthropic" →
        PkgAI.NewClient cfg =
          Except.error (PkgAI.AIErr.providerNotSupported cfg.provider)) ∧
    (∀ cfg : PkgAI.ClientConfig, cfg.apiKey = [] →
        PkgAI.NewClient cfg = Except.error PkgAI.AIErr.noAPIKey) ∧
    (∀ cfg : IntAI.Config,
        cfg.provider ≠ str "openai" → cfg.provider ≠ str "anthropic" →
        IntAI.NewClient cfg =
          IntAI.NewOpenAIClient cfg.openAIKey cfg.openAIModel) := by
  refine ⟨?_, ?_, ?_⟩
  · intro cfg h1 h2 h3
    simp [PkgAI.NewClient, h1, h2, h3]
  · intro cfg h1
    simp [PkgAI.NewClient, h1]
  · intro cfg h1 h2
    simp [IntAI.NewClient, h1, h2]

/-- C8 witness: the pkg factory rejects the unrecognized provider "gemini"
with `ErrProviderNotSupported`. -/
theorem newClient_provider_dispatch_spec_witness :
    PkgAI.NewClient
        { provider := str "gemini", apiKey := str "sk-test",
          model := str "m", timeout := 0, temperature := 0,
          maxTokens := 0 } =
      Except.error (PkgAI.AIErr.providerNotSupported (str "gemini")) :=
  newClient_provider_dispatch_spec.1
    { provider := str "gemini", apiKey := str "sk-test", model := str "m",
      timeout := 0, temperature := 0, maxTokens := 0 }
    (by decide) (by decide) (by decide)

namespace Fixtures

open Models

/-- Mock pkg AI client mirroring the test double `MockAIClient`
(part_010 lines 13-73): fixed successful responses. -/
def mockClient : PkgAI.ClientModel :=
  { analyzeIncident := fun _ =>
      Except.ok
        { summary := str "Test analysis summary",
          findings := [str "Finding 1", str "Finding 2"],
          rootCauses := [str "Root cause 1"],
          recommendedActions := [str "Action 1"],
          suggestedSeverity := str "high", rawResponse := [] },
    generateRCA := fun _ =>
      Except.ok
        { timeline := str "Timeline details",
          rootCause := str "Root cause details", impact := str "Impact details",
          immediateResolution := str "Immediate resolution",
          preventiveMeasures := [str "Measure 1"],
          lessonsLearned := [str "Lesson 1"], rawResponse := [] },
    summarizeLogs := fun _ =>
      Except.ok
        { summary := str "Log summary", keyInsights := [str "Insight 1"],
          alerts := [str "Alert 1"], rawResponse := [] },
    provider := str "openai", model := str "gpt-4" }

/-- Fixed analysis artifact returned by the mock internal client. -/
def aFix : AIAnalysis :=
  { summary := str "Test analysis summary", findings := [str "Finding 1"],
    rootCauses := [str "Root cause 1"],
    recommendedActions := [str "Action 1"], severitySuggestion := str "high",
    generatedAt := 1, model := str "gpt-4", provider := str "openai" }

/-- Fixed RCA artifact returned by the mock internal client. -/
def rcaFix : RCADocument :=
  { timeline := [str "Timeline details"], rootCause := str "Root cause details",
    impact := str "Impact details",
    immediateResolution := str "Immediate resolution",
    preventiveMeasures := [str "Measure 1"],
    lessonsLearned := [str "Lesson 1"], generatedAt := 1,
    model := str "gpt-4", provider := str "openai" }

/-- Mock internal AI client with fixed successful responses. -/
def mockIClient : IntIncident.IClientModel :=
  { analyzeIncident := fun _ => Except.ok aFix,
    generateRCA := fun _ _ => Except.ok rcaFix,
    summarizeLogs := fun _ => Except.ok (str "Log summary"),
    classifySeverity := fun _ => Except.ok (str "high") }

/-- Pkg store holding only `inc0`. -/
def store1 : PkgService.PStore :=
  { incidents := [(str "INC-1-1", inc0)], counter := 1 }

/-- Internal incident record fixture. -/
def iinc0 : IntIncident.IIncident :=
  { id := str "I1", title := str "t", description := str "d", severity := [],
    status := Models.IncidentStatus.open_, source := str "s",
    alertData := none, logs := [], createdAt := 0, updatedAt := 0,
    resolvedAt := none }

/-- Internal service holding only `iinc0`, no analyses, no RCAs, with the
mock client configured. -/
def isvc1 : IntIncident.IService :=
  { incidents := [(str "I1", iinc0)], analyses := [], rcas := [],
    client := some mockIClient }

end Fixtures

/-- C6: on an ID absent from the store, `AnalyzeIncident` fails with the
NotFound error before any AI client call: in both services, the returned
error is NotFound and the operation's trace contains zero AI-call
events. -/
theorem analyze_notFound_before_ai_spec :
    (∀ (store : PkgService.PStore) (client : PkgAI.ClientModel)
        (id : List Char) (now : Nat),
        getAssoc store.incidents id = none →
        (PkgService.analyzeIncident store client id now).1.1 = none ∧
        (PkgService.analyzeIncident store client id now).1.2 =
          some (str "incident not found: " ++ id) ∧
        (PkgService.analyzeIncident store client id now).2.2.count Ev.aiEv
          = 0) ∧
    (∀ (svc : IntIncident.IService) (id : List Char),
        getAssoc svc.incidents id = none →
        (IntIncident.analyzeIncident svc id).1 =
          Except.error (str "incident not found: " ++ id) ∧
        (IntIncident.analyzeIncident svc id).2.2.count Ev.aiEv = 0) := by
  constructor
  · intro store client id now h
    refine ⟨?_, ?_, ?_⟩ <;>
      simp [PkgService.analyzeIncident, PkgService.getIncident, h,
        List.count_cons]
  · intro svc id h
    refine ⟨?_, ?_⟩ <;>
      simp [IntIncident.analyzeIncident, h, List.count_cons]

open Fixtures in
/-- C6 witness: both analyze operations on the empty / unknown ID
"missing" return NotFound with zero AI calls. -/
theorem analyze_notFound_before_ai_spec_witness :
    (PkgService.analyzeIncident { incidents := [], counter := 0 }
        mockClient (str "missing") 3).1.2 =
      some (str "incident not found: " ++ str "missing") ∧
    (PkgService.analyzeIncident { incidents := [], counter := 0 }
        mockClient (str "missing") 3).2.2.count Ev.aiEv = 0 ∧
    (IntIncident.analyzeIncident
        { incidents := [], analyses := [], rcas := [],
          client := some mockIClient } (str "missing")).1 =
      Except.error (str "incident not found: " ++ str "missing") ∧
    (IntIncident.analyzeIncident
        { incidents := [], analyses := [], rcas := [],
          client := some mockIClient } (str "missing")).2.2.count Ev.aiEv
      = 0 := by
  refine ⟨?_, ?_, ?_, ?_⟩
  · exact (analyze_notFound_before_ai_spec.1 _ mockClient (str "missing") 3
      (by rfl)).2.1
  · exact (analyze_notFound_before_ai_spec.1 _ mockClient (str "missing") 3
      (by rfl)).2.2
  · exact (analyze_notFound_before_ai_spec.2 _ (str "missing") (by rfl)).1
  · exact (analyze_notFound_before_ai_spec.2 _ (str "missing") (by rfl)).2

theorem int_analyze_trace_cases (svc : IntIncident.IService)
    (id : List Char) :
    (IntIncident.analyzeIncident svc id).2.2 = [Ev.rlockEv, Ev.runlockEv] ∨
    (IntIncident.analyzeIncident svc id).2.2 =
      [Ev.rlockEv, Ev.runlockEv, Ev.aiEv] ∨
    (IntIncident.analyzeIncident svc id).2.2 =
      [Ev.rlockEv, Ev.runlockEv, Ev.aiEv, Ev.lockEv, Ev.unlockEv] := by
  simp only [IntIncident.analyzeIncident]
  split
  · simp
  · split
    · simp
    · split <;> simp

/-- C9 counterexample: the internal `CreateIncident` performs its
`ClassifySeverity` AI call while HOLDING the exclusive store lock
(`s.mu.Lock()` with deferred unlock spans the whole body, part_005 lines
34-64): on a request without a severity and with a client configured, the
operation's trace has its AI call at lock depth 1, refuting "no service
operation holds the incident store's lock while performing network
I/O". -/
theorem createIncident_ai_under_lock :
    aiDepths
      (IntIncident.createIncident Fixtures.isvc1
        { title := str "T", description := str "D", severity := [],
          source := str "s", alertData := none, logs := [] }
        (str "U1") 2).2 0 = [1] ∧
    ¬ (∀ d ∈ aiDepths
        (IntIncident.createIncident Fixtures.isvc1
          { title := str "T", description := str "D", severity := [],
            source := str "s", alertData := none, logs := [] }
          (str "U1") 2).2 0, d = 0) := by
  constructor
  · rfl
  · intro hall
    have h1 := hall 1 (by rw [show aiDepths
      (IntIncident.createIncident Fixtures.isvc1
        { title := str "T", description := str "D", severity := [],
          source := str "s", alertData := none, logs := [] }
        (str "U1") 2).2 0 = [1] from rfl]; simp)
    cases h1

/-- C9 amended: `AnalyzeIncident` and `GenerateRCA` in both services never
perform an AI call while a lock is held (every AI event of every trace
occurs at lock depth 0); the violation lies elsewhere, in the internal
`CreateIncident` (see the counterexample). -/
theorem lock_discipline_spec :
    (∀ (store : PkgService.PStore) (client : PkgAI.ClientModel)
        (id : List Char) (now : Nat) (d : Nat),
        d ∈ aiDepths (PkgService.analyzeIncident store client id now).2.2 0 →
        d = 0) ∧
    (∀ (store : PkgService.PStore) (client : PkgAI.ClientModel)
        (id : List Char) (now : Nat) (d : Nat),
        d ∈ aiDepths (PkgService.generateRCA store client id now).2.2 0 →
        d = 0) ∧
    (∀ (svc : IntIncident.IService) (id : List Char) (d : Nat),
        d ∈ aiDepths (IntIncident.analyzeIncident svc id).2.2 0 → d = 0) ∧
    (∀ (svc : IntIncident.IService) (id : List Char) (d : Nat),
        d ∈ aiDepths (IntIncident.generateRCA svc id).2.2 0 → d = 0) := by
  refine ⟨?_, ?_, ?_, ?_⟩
  · intro store client id now d hd
    simp only [PkgService.analyzeIncident, PkgService.getIncident] at hd
    split at hd
    · simp [aiDepths] at hd
    · split at hd <;> simp [aiDepths] at hd <;> omega
  · intro store client id now d hd
    simp only [PkgService.generateRCA, PkgService.getIncident] at hd
    split at hd
    · simp [aiDepths] at hd
    · split at hd <;> simp [aiDepths] at hd <;> omega
  · intro svc id d hd
    simp only [IntIncident.analyzeIncident] at hd
    split at hd
    · simp [aiDepths] at hd
    · split at hd
      · simp [aiDepths] at hd
      · split at hd <;> simp [aiDepths] at hd <;> omega
  · intro svc id d hd
    simp only [IntIncident.generateRCA] at hd
    split at hd
    · simp [aiDepths] at hd
    · split at hd
      · simp [aiDepths] at hd
      · cases ha : getAssoc svc.analyses id with
        | some a =>
            simp only [ha] at hd
            split at hd <;> simp [aiDepths] at hd <;> omega
        | none =>
            rcases int_analyze_trace_cases svc id with h | h | h <;>
              simp only [ha, h] at hd <;>
              split at hd <;>
              try split at hd
            all_goals simp [aiDepths] at hd
            all_goals omega

/-- C9 witness: a successful pkg `AnalyzeIncident` on a stored incident
has its single AI call at lock depth 0. -/
theorem lock_discipline_spec_witness :
    0 ∈ aiDepths
      (PkgService.analyzeIncident Fixtures.store1 Fixtures.mockClient
        (str "INC-1-1") 5).2.2 0 ∧ (0 : Nat) = 0 :=
  ⟨by decide,
   lock_discipline_spec.1 Fixtures.store1 Fixtures.mockClient
     (str "INC-1-1") 5 0 (by decide)⟩

theorem getAssoc_append_none {α : Type} (m : List (List Char × α))
    (k : List Char) (v : α) (h : getAssoc m k = none) :
    getAssoc (m ++ [(k, v)]) k = some v := by
  induction m with
  | nil => simp [getAssoc]
  | cons p rest ih =>
      by_cases hpk : (p.1 == k) = true
      · simp [getAssoc, List.find?, hpk] at h
      · simp only [getAssoc, List.cons_append, List.find?, hpk] at h ⊢
        exact ih h

theorem getAssoc_putAssoc {α : Type} (m : List (List Char × α))
    (k : List Char) (v : α) : getAssoc (putAssoc m k v) k = some v := by
  by_cases hs : (getAssoc m k).isSome = true
  · rw [putAssoc, if_pos hs]
    exact getAssoc_setAssoc m k v hs
  · rw [putAssoc, if_neg hs]
    exact getAssoc_append_none m k v (by
      cases h : getAssoc m k
      · rfl
      · rw [h] at hs; simp at hs)

/-- C3 counterexample: the pkg `GenerateRCA` (part_010 lines 489-542),
called on a stored incident with no prior analysis, builds the RCA request
from a ZERO-VALUED `ai.AnalysisResponse` and stores only the RCADocument:
the resulting incident (both the returned one and the stored one) still
has a nil AIAnalysis, so a single `GenerateRCA` call does not leave the
state with both artifacts populated. -/
theorem generateRCA_pkg_leaves_analysis_nil :
    ((PkgService.generateRCA Fixtures.store1 Fixtures.mockClient
        (str "INC-1-1") 7).1.1.map (fun i => i.aiAnalysis.isSome)
      = some false) ∧
    ((PkgService.generateRCA Fixtures.store1 Fixtures.mockClient
        (str "INC-1-1") 7).1.1.map (fun i => i.rcaDocument.isSome)
      = some true) ∧
    ((getAssoc (PkgService.generateRCA Fixtures.store1 Fixtures.mockClient
          (str "INC-1-1") 7).2.1.incidents (str "INC-1-1")).map
        (fun i => i.aiAnalysis.isSome) = some false) := by
  refine ⟨rfl, rfl, rfl⟩

/-- C3 amended: the INTERNAL `GenerateRCA` (part_005 lines 155-190) does
implement analyze-first through the shared `AnalyzeIncident` code path:
on an incident with no stored analysis, a single call stores both the
fresh AIAnalysis and the RCADocument; the pkg `GenerateRCA` does not (see
the counterexample). -/
theorem generateRCA_analyze_first_spec :
    ∀ (svc : IntIncident.IService) (id : List Char)
      (inc : IntIncident.IIncident) (cl : IntIncident.IClientModel)
      (a : Models.AIAnalysis) (rca : Models.RCADocument),
      getAssoc svc.incidents id = some inc →
      svc.client = some cl →
      getAssoc svc.analyses id = none →
      cl.analyzeIncident inc = Except.ok a →
      cl.generateRCA inc a = Except.ok rca →
      (IntIncident.generateRCA svc id).1 = Except.ok rca ∧
      getAssoc (IntIncident.generateRCA svc id).2.1.analyses id = some a ∧
      getAssoc (IntIncident.generateRCA svc id).2.1.rcas id = some rca := by
  intro svc id inc cl a rca h1 h2 ha hA hR
  simp only [IntIncident.generateRCA, IntIncident.analyzeIncident, h1, h2,
    ha, hA, hR]
  exact ⟨trivial, getAssoc_putAssoc _ _ _, getAssoc_putAssoc _ _ _⟩

open Fixtures in
/-- C3 witness: on the concrete internal service holding only `iinc0`
with the mock client and no analyses, one `GenerateRCA` call returns the
RCA and stores both artifacts. -/
theorem generateRCA_analyze_first_spec_witness :
    (IntIncident.generateRCA isvc1 (str "I1")).1 = Except.ok rcaFix ∧
    getAssoc (IntIncident.generateRCA isvc1 (str "I1")).2.1.analyses
      (str "I1") = some aFix ∧
    getAssoc (IntIncident.generateRCA isvc1 (str "I1")).2.1.rcas
      (str "I1") = some rcaFix :=
  generateRCA_analyze_first_spec isvc1 (str "I1") iinc0 mockIClient aFix
    rcaFix (by rfl) (by rfl) (by rfl) (by rfl) (by rfl)

theorem digitChr_inj :
    ∀ d1, d1 < 10 → ∀ d2, d2 < 10 →
      Char.ofNat (48 + d1) = Char.ofNat (48 + d2) → d1 = d2 := by
  decide

theorem digitChr_ne_dash : ∀ d, d < 10 → Char.ofNat (48 + d) ≠ '-' := by
  decide

theorem natStr_no_dash (n : Nat) : '-' ∉ natStr n := by
  unfold natStr
  split
  · decide
  · intro hmem
    rcases List.mem_map.mp hmem with ⟨d, hd, hchr⟩
    have hd10 : d < 10 :=
      Nat.digits_lt_base (by norm_num) (List.mem_reverse.mp hd)
    exact digitChr_ne_dash d hd10 hchr

theorem map_digitChr_inj :
    ∀ (as bs : List Nat), (∀ x ∈ as, x < 10) → (∀ x ∈ bs, x < 10) →
      as.map (fun d => Char.ofNat (48 + d)) =
        bs.map (fun d => Char.ofNat (48 + d)) → as = bs := by
  intro as
  induction as with
  | nil => intro bs _ _ h; cases bs with
      | nil => rfl
      | cons b bs => simp at h
  | cons a as ih =>
      intro bs ha hb h
      cases bs with
      | nil => simp at h
      | cons b bs =>
          simp only [List.map, List.cons.injEq] at h
          have hab : a = b :=
            digitChr_inj a (ha a (List.mem_cons_self a as)) b
              (hb b (List.mem_cons_self b bs)) h.1
          have htl : as = bs :=
            ih bs (fun x hx => ha x (List.mem_cons_of_mem _ hx))
              (fun x hx => hb x (List.mem_cons_of_mem _ hx)) h.2
          rw [hab, htl]

theorem natStr_inj (m n : Nat) (h : natStr m = natStr n) : m = n := by
  have digits_lt : ∀ k : Nat, ∀ x ∈ (Nat.digits 10 k).reverse, x < 10 :=
    fun k x hx => Nat.digits_lt_base (by norm_num) (List.mem_reverse.mp hx)
  have zed : ∀ k : Nat, ¬ k = 0 →
      (Nat.digits 10 k).reverse.map (fun d => Char.ofNat (48 + d)) =
        ['0'] → False := by
    intro k hk hmap
    have h0 : (['0'] : List Char) =
        ([0] : List Nat).map (fun d => Char.ofNat (48 + d)) := by decide
    rw [h0] at hmap
    have : (Nat.digits 10 k).reverse = [0] :=
      map_digitChr_inj _ _ (digits_lt k) (by intro x hx; simp at hx; omega)
        hmap
    have hdig : Nat.digits 10 k = [0] := by
      have := congrArg List.reverse this
      simpa using this
    have := Nat.ofDigits_digits 10 k
    rw [hdig] at this
    simp [Nat.ofDigits] at this
    exact hk this.symm
  unfold natStr at h
  by_cases hm : m = 0 <;> by_cases hn : n = 0
  · rw [hm, hn]
  · rw [if_pos hm, if_neg hn] at h
    exact absurd (zed n hn h.symm) (by simp)
  · rw [if_neg hm, if_pos hn] at h
    exact absurd (zed m hm h) (by simp)
  · rw [if_neg hm, if_neg hn] at h
    have hrev : (Nat.digits 10 m).reverse = (Nat.digits 10 n).reverse :=
      map_digitChr_inj _ _ (digits_lt m) (digits_lt n) h
    have hdig : Nat.digits 10 m = Nat.digits 10 n := by
      have := congrArg List.reverse hrev
      simpa using this
    have := congrArg (Nat.ofDigits 10) hdig
    rwa [Nat.ofDigits_digits, Nat.ofDigits_digits] at this

theorem append_cons_inj :
    ∀ (x y u v : List Char) (ch : Char), ch ∉ x → ch ∉ y →
      x ++ ch :: u = y ++ ch :: v → x = y ∧ u = v := by
  intro x
  induction x with
  | nil =>
      intro y u v ch _ hy h
      cases y with
      | nil => simpa using h
      | cons b ys =>
          simp only [List.nil_append, List.cons_append,
            List.cons.injEq] at h
          exact absurd (h.1 ▸ List.mem_cons_self b ys) (h.1 ▸ hy)
  | cons a xs ih =>
      intro y u v ch hx hy h
      cases y with
      | nil =>
          simp only [List.cons_append, List.nil_append,
            List.cons.injEq] at h
          exact absurd (h.1 ▸ List.mem_cons_self a xs) (h.1 ▸ hx)
      | cons b ys =>
          simp only [List.cons_append, List.cons.injEq] at h
          have := ih ys u v ch (fun hm => hx (List.mem_cons_of_mem _ hm))
            (fun hm => hy (List.mem_cons_of_mem _ hm)) h.2
          exact ⟨by rw [h.1, this.1], this.2⟩

namespace PkgService

/-- Shape of every generated incident ID:
`"INC-" ++ decimal time ++ "-" ++ decimal counter`. -/
def idFormat (t c : Nat) : List Char :=
  str "INC-" ++ natStr t ++ '-' :: natStr c

theorem generateID_fst (store : PStore) (t : Nat) :
    (generateID store t).1 = idFormat t (store.counter + 1) := rfl

theorem idFormat_counter_inj (t1 c1 t2 c2 : Nat)
    (h : idFormat t1 c1 = idFormat t2 c2) : c1 = c2 := by
  have hrev := congrArg List.reverse h
  simp only [idFormat, List.reverse_append, List.reverse_cons,
    List.append_assoc, List.singleton_append] at hrev
  have hsplit := append_cons_inj (natStr c1).reverse (natStr c2).reverse
    _ _ '-'
    (fun hm => natStr_no_dash c1 (List.mem_reverse.mp hm))
    (fun hm => natStr_no_dash c2 (List.mem_reverse.mp hm))
    hrev
  have : natStr c1 = natStr c2 := by
    have := congrArg List.reverse hsplit.1
    simpa using this
  exact natStr_inj c1 c2 this

theorem mem_runGenerateIDs :
    ∀ (ts : List Nat) (store : PStore) (id : List Char),
      id ∈ runGenerateIDs store ts →
      ∃ t c, store.counter < c ∧ id = idFormat t c := by
  intro ts
  induction ts with
  | nil => intro store id h; simp [runGenerateIDs] at h
  | cons t rest ih =>
      intro store id h
      simp only [runGenerateIDs, List.mem_cons] at h
      rcases h with h | h
      · exact ⟨t, store.counter + 1, Nat.lt_succ_self _, h⟩
      · rcases ih _ id h with ⟨t', c', hc', hid⟩
        exact ⟨t', c', Nat.lt_of_succ_lt hc', hid⟩

end PkgService

/-- C7: successive `CreateIncident` ID generations on one pkg store
return pairwise distinct IDs: `generateID` increments the mutex-guarded
counter on every call, and the counter component of
`INC-<time>-<counter>` (the digits after the LAST dash) determines the
counter value uniquely, whatever the per-call clock readings are. -/
theorem createIncident_ids_distinct :
    ∀ (store : PkgService.PStore) (ts : List Nat),
      (PkgService.runGenerateIDs store ts).Pairwise (· ≠ ·) := by
  intro store ts
  induction ts generalizing store with
  | nil => exact List.Pairwise.nil
  | cons t rest ih =>
      refine List.Pairwise.cons ?_ (ih _)
      intro y hy heq
      rcases PkgService.mem_runGenerateIDs rest _ y hy with ⟨t', c', hc', hid⟩
      rw [PkgService.generateID_fst] at heq
      have : store.counter + 1 = c' := by
        apply PkgService.idFormat_counter_inj t _ t' _
        rw [← hid]
        exact heq
      simp [PkgService.generateID] at hc'
      omega
